import Mathlib

/-!
Verification development for the sparqlx SPARQL client library.

The definitions below are a shallow embedding of the response conversion
engine and the operation parameter model of the library:

* src/sparqlx/utils/converters.py  (convert_bindings, convert_ask, literal coercion)
* src/sparqlx/utils/utils.py       (MimeTypeMap, SPARQLOperationDataMap,
                                    QueryOperationParameters, UpdateOperationParameters)
* src/sparqlx/utils/client_manager.py and src/sparqlx/sparqlwrapper.py
                                   (client lifecycle, request dispatch)

Machine representation notes: Python integers are modelled as Int, the
arbitrary-precision Decimal type as Rat, strings as String, dictionaries as
association lists (lookup is first occurrence, JSON object keys are unique).
-/

/-- XSD namespace helper: builds a full XML Schema datatype IRI. -/
def xsd (localName : String) : String :=
  "http://www.w3.org/2001/XMLSchema#" ++ localName

/-- Result of coercing one SPARQL JSON term descriptor to a Python value, as
produced by the converters in converters.py. The constructor literal models
an rdflib Literal object returned as-is by Literal.toPython (a tagged literal
carrying the raw lexical form and an optional datatype IRI). The constructor
native abstractly represents the native value produced by a registered rdflib
coercion whose exact image the claims never inspect (double, dateTime, time). -/
inductive SPARQLBindingValue where
  | uri (value : String)
  | bnode (value : String)
  | str (value : String)
  | int (value : ℤ)
  | decimal (value : ℚ)
  | boolean (value : Bool)
  | date (year month day : ℕ)
  | native (datatype : String) (lexical : String)
  | literal (lexical : String) (datatype : Option String)
deriving DecidableEq, Repr

/-- Decimal digit accumulator over a character list. -/
def digitsVal : List Char → ℕ → Option ℕ
  | [], acc => some acc
  | c :: cs, acc => if c.isDigit then digitsVal cs (acc * 10 + (c.toNat - 48)) else none

/-- Nonempty all-digit character list to a natural number. -/
def parseNatChars (cs : List Char) : Option ℕ :=
  if cs.isEmpty then none else digitsVal cs 0

/-- Python int(lexical): optional sign followed by digits. -/
def parseInteger (s : String) : Option ℤ :=
  match s.data with
  | '-' :: rest => (parseNatChars rest).map (fun n => -(n : ℤ))
  | '+' :: rest => (parseNatChars rest).map (fun n => (n : ℤ))
  | cs => (parseNatChars cs).map (fun n => (n : ℤ))

/-- Split a character list at every separator character, keeping empty
pieces, with the semantics of the Python str.split method with an explicit
separator. -/
def splitOnChar (sep : Char) : List Char → List (List Char)
  | [] => [[]]
  | c :: cs =>
    let r := splitOnChar sep cs
    if c = sep then [] :: r
    else
      match r with
      | t :: ts => (c :: t) :: ts
      | [] => [[c]]

/-- Unsigned part of a decimal lexical form: digits with an optional point. -/
def parseUnsignedDecimal (cs : List Char) : Option ℚ :=
  match splitOnChar '.' cs with
  | [i] => (parseNatChars i).map (fun n => (n : ℚ))
  | [i, f] =>
    if i.isEmpty && f.isEmpty then none
    else
      match (if i.isEmpty then some 0 else parseNatChars i),
            (if f.isEmpty then some 0 else parseNatChars f) with
      | some ip, some fp => some ((ip : ℚ) + (fp : ℚ) / (10 : ℚ) ^ f.length)
      | _, _ => none
  | _ => none

/-- Python Decimal(lexical): exact arbitrary-precision decimal arithmetic,
modelled in the rational numbers. -/
def parseDecimal (s : String) : Option ℚ :=
  match s.data with
  | '-' :: rest => (parseUnsignedDecimal rest).map (fun q => -q)
  | '+' :: rest => parseUnsignedDecimal rest
  | cs => parseUnsignedDecimal cs

/-- XSD boolean lexical space accepted by the rdflib boolean coercion. -/
def parseBoolean (s : String) : Option Bool :=
  if s = "true" || s = "1" then some true
  else if s = "false" || s = "0" then some false
  else none

/-- Date lexical form YYYY-MM-DD as parsed by the rdflib date coercion. -/
def parseDate (s : String) : Option (ℕ × ℕ × ℕ) :=
  match splitOnChar '-' s.data with
  | [y, m, d] =>
    match parseNatChars y, parseNatChars m, parseNatChars d with
    | some yv, some mv, some dv =>
      if 1 ≤ mv && mv ≤ 12 && 1 ≤ dv && dv ≤ 31 then some (yv, mv, dv) else none
    | _, _, _ => none
  | _ => none

/-- Registered datatype coercion table of the external rdflib library
(XSDToPython), as exercised through Literal.toPython at converters.py line 76
and pinned by the repository test test_sparqlwrapper_python_cast_types:
integer and decimal map to exact numeric types, boolean to Bool, date to a
calendar value; double, float, dateTime and time map to native values kept
abstract here. The gYear and gYearMonth datatypes deliberately have no entry:
the repository test asserts they stay tagged literals. A coercion returns
none when the lexical form is invalid for the datatype, in which case rdflib
keeps the ill-typed literal and toPython returns the Literal object itself. -/
def xsdToPythonTable : List (String × (String → Option SPARQLBindingValue)) :=
  [ (xsd "string", fun lex => some (.str lex)),
    (xsd "boolean", fun lex => (parseBoolean lex).map .boolean),
    (xsd "integer", fun lex => (parseInteger lex).map .int),
    (xsd "int", fun lex => (parseInteger lex).map .int),
    (xsd "long", fun lex => (parseInteger lex).map .int),
    (xsd "decimal", fun lex => (parseDecimal lex).map .decimal),
    (xsd "double", fun lex => some (.native (xsd "double") lex)),
    (xsd "float", fun lex => some (.native (xsd "float") lex)),
    (xsd "date", fun lex => (parseDate lex).map (fun t => .date t.1 t.2.1 t.2.2)),
    (xsd "dateTime", fun lex => some (.native (xsd "dateTime") lex)),
    (xsd "time", fun lex => some (.native (xsd "time") lex)) ]

/-- Literal coercion: rdflib Literal(value, datatype).toPython() as invoked at
converters.py lines 71 to 77. A plain literal without datatype behaves as a
plain string; a datatype with a registered coercion yields its native value;
any other datatype, and any ill-typed lexical form, yields the Literal object
itself, i.e. a tagged literal carrying lexical form and datatype. -/
def literalToPython (lex : String) (datatype : Option String) : SPARQLBindingValue :=
  match datatype with
  | none => .str lex
  | some dt =>
    match xsdToPythonTable.lookup dt with
    | none => .literal lex (some dt)
    | some conv =>
      match conv lex with
      | some v => v
      | none => .literal lex (some dt)

/-- One term descriptor of a well-formed SPARQL JSON results binding object:
the type field is uri, literal or bnode, with a value and, for literals, an
optional datatype (converters.py lines 67 to 82). -/
inductive TermDesc where
  | uri (value : String)
  | literal (value : String) (datatype : Option String)
  | bnode (value : String)
deriving DecidableEq, Repr

/-- Dispatch on the type field of a binding term descriptor, as in the match
statement of get_binding_pairs (converters.py lines 67 to 82). -/
def convertTerm : TermDesc → SPARQLBindingValue
  | .uri v => .uri v
  | .literal v dt => literalToPython v dt
  | .bnode v => .bnode v

/-- Well-formed SPARQL SELECT JSON results payload: the declared variable list
from head.vars and the binding objects from results.bindings, each binding
object being a JSON object mapping variable names to term descriptors
(association list with unique keys, as produced by a JSON parser). -/
structure SelectPayload where
  vars : List String
  bindings : List (List (String × TermDesc))
deriving Repr

/-- One row of get_binding_pairs: for each declared variable in order, yield
the variable paired with none when the binding object lacks it (the unbound
marker, Python None), and with the coerced term otherwise. -/
def convertRow (vars : List String) (binding : List (String × TermDesc)) :
    List (String × Option SPARQLBindingValue) :=
  vars.map (fun v => (v, (binding.lookup v).map convertTerm))

/-- The convert_bindings converter (converters.py lines 15 to 84) on a
well-formed payload: one converted row per binding object, in payload order. -/
def convert_bindings (p : SelectPayload) : List (List (String × Option SPARQLBindingValue)) :=
  p.bindings.map (convertRow p.vars)

/-- Errors raised by the query pipeline, mirroring the Python exception
classes that actually occur in the code paths under src: ValueError raised by
QueryOperationParameters.response_format, the ParseException of the external
pyparsing-based SPARQL grammar propagated unwrapped out of rdflib
prepareQuery, json.JSONDecodeError from Response.json, KeyError from a dict
subscript, TypeError from subscripting a non-dict JSON value. -/
inductive SparqlxError where
  | valueError (msg : String)
  | pyparsingParseException (diagnostic : String)
  | jsonDecodeError (msg : String)
  | keyError (key : String)
  | typeError (msg : String)
deriving DecidableEq, Repr

/-- Python class test: which of the modelled exception classes are subclasses
of ValueError. json.JSONDecodeError derives from ValueError; KeyError,
TypeError and the pyparsing ParseException do not. -/
def SparqlxError.isValueErrorClass : SparqlxError → Bool
  | .valueError _ => true
  | .jsonDecodeError _ => true
  | .keyError _ => false
  | .typeError _ => false
  | .pyparsingParseException _ => false

/-- Character list prefix test. -/
def leadsList : List Char → List Char → Bool
  | [], _ => true
  | _ :: _, [] => false
  | p :: ps, c :: cs => p = c && leadsList ps cs

/-- Substring occurrence over character lists. -/
def hasSubList (pat : List Char) : List Char → Bool
  | [] => pat.isEmpty
  | c :: rest => leadsList pat (c :: rest) || hasSubList pat rest

/-- Substring occurrence test used to compare raised messages against the
message patterns the repository tests match with pytest.raises. -/
def containsSubstr (pat s : String) : Bool :=
  hasSubList pat.data s.data

/-- Lookup with fallback of MimeTypeMap (utils.py lines 15 to 34): a missing
key is returned unchanged, so short format names and full MIME types are
interchangeable. -/
def MimeTypeMap.get (entries : List (String × String)) (key : String) : String :=
  ((entries.lookup key).getD key)

/-- Entries of bindings_format_map (utils.py lines 37 to 44). -/
def bindings_format_entries : List (String × String) :=
  [ ("json", "application/sparql-results+json"),
    ("xml", "application/sparql-results+xml"),
    ("csv", "text/csv"),
    ("tsv", "text/tab-separated-values") ]

/-- Entries of graph_format_map (utils.py lines 45 to 52). -/
def graph_format_entries : List (String × String) :=
  [ ("turtle", "text/turtle"),
    ("xml", "application/rdf+xml"),
    ("ntriples", "application/n-triples"),
    ("json-ld", "application/ld+json") ]

/-- Algebra name of a parsed query as classified by rdflib prepareQuery at
utils.py line 105: one of the four SPARQL query forms. -/
inductive QueryType where
  | SelectQuery
  | AskQuery
  | ConstructQuery
  | DescribeQuery
deriving DecidableEq, Repr

/-- Python truthiness idiom (x or default) applied to an optional string
argument: None and the empty string both fall back to the default. -/
def pyOrDefault (x : Option String) (dflt : String) : String :=
  match x with
  | none => dflt
  | some s => if s = "" then dflt else s

/-- Response format resolution of QueryOperationParameters.response_format
(utils.py lines 160 to 176), as a function of the classified query type and
the optional caller-supplied format, with the convert check factored out:
Select and Ask resolve through bindings_format_map with default json,
Construct and Describe through graph_format_map with default turtle. -/
def resolve_response_format (qt : QueryType) (fmt : Option String) : String :=
  match qt with
  | .SelectQuery | .AskQuery => MimeTypeMap.get bindings_format_entries (pyOrDefault fmt "json")
  | .ConstructQuery | .DescribeQuery => MimeTypeMap.get graph_format_entries (pyOrDefault fmt "turtle")

/-- Exact message of the ValueError raised at utils.py line 168. -/
def jsonRequiredMsg : String :=
  "JSON response format required for convert=True on SELECT and ASK query results."

/-- The response_format property (utils.py lines 143 to 176) including the
convert validation: for Select and Ask, when convert is truthy and the
resolved MIME type is neither application/json nor
application/sparql-results+json, a ValueError with the exact documented
message is raised. -/
def QueryOperationParameters.response_format (qt : QueryType) (convert : Bool)
    (fmt : Option String) : Except SparqlxError String :=
  match qt with
  | .SelectQuery | .AskQuery =>
    let r := resolve_response_format qt fmt
    if convert && !(r = "application/json" || r = "application/sparql-results+json") then
      .error (.valueError jsonRequiredMsg)
    else
      .ok r
  | .ConstructQuery | .DescribeQuery => .ok (resolve_response_format qt fmt)

/-- Request data value: a single string or a list of strings, as permitted
for the graph URI options (types module, TRequestDataValue). -/
inductive DataValue where
  | str (s : String)
  | list (l : List String)
deriving DecidableEq, Repr

/-- Python str.replace for the single-character pattern used at utils.py
line 72: every underscore in a key becomes a hyphen. -/
def hyphenate (k : String) : String :=
  String.mk (k.data.map (fun c => if c = '_' then '-' else c))

/-- SPARQLOperationDataMap (utils.py lines 55 to 72): keyword arguments with
underscores replaced by hyphens in the keys, entries whose value is None
dropped entirely, values kept unmodified. -/
def SPARQLOperationDataMap (kwargs : List (String × Option DataValue)) :
    List (String × DataValue) :=
  kwargs.filterMap (fun kv => kv.2.map (fun v => (hyphenate kv.1, v)))

/-- Request data of a query operation, with the keyword order used at
utils.py lines 108 to 113. -/
def queryOperationData (query : String) (version : Option String)
    (default_graph_uri named_graph_uri : Option DataValue) : List (String × DataValue) :=
  SPARQLOperationDataMap
    [ ("query", some (.str query)),
      ("version", version.map .str),
      ("default_graph_uri", default_graph_uri),
      ("named_graph_uri", named_graph_uri) ]

/-- Request data of an update operation, with the keyword order used at
utils.py lines 203 to 208. -/
def updateOperationData (update_request : String) (version : Option String)
    (using_graph_uri using_named_graph_uri : Option DataValue) : List (String × DataValue) :=
  SPARQLOperationDataMap
    [ ("update", some (.str update_request)),
      ("version", version.map .str),
      ("using_graph_uri", using_graph_uri),
      ("using_named_graph_uri", using_named_graph_uri) ]

/-- Form encoding of the request data performed by the httpx transport on the
data argument of Client.post: a string value becomes one field occurrence, a
list value becomes one occurrence per element in list order (repeated keys,
per the SPARQL protocol wire convention in section 6 of the spec). -/
def formEncodePairs (data : List (String × DataValue)) : List (String × String) :=
  data.flatMap (fun kv =>
    match kv.2 with
    | .str s => [(kv.1, s)]
    | .list l => l.map (fun x => (kv.1, x)))

/-- ASCII lower casing of one character. -/
def charLower (c : Char) : Char :=
  if 'A' ≤ c && c ≤ 'Z' then Char.ofNat (c.toNat + 32) else c

/-- ASCII lower casing of a string. -/
def strLower (s : String) : String :=
  String.mk (s.data.map charLower)

/-- Split a character list at whitespace, keeping empty pieces. -/
def splitWsChars : List Char → List (List Char)
  | [] => [[]]
  | c :: cs =>
    let r := splitWsChars cs
    if c.isWhitespace then [] :: r
    else
      match r with
      | t :: ts => (c :: t) :: ts
      | [] => [[c]]

/-- Whitespace tokenization of query text used by the grammar model below. -/
def tokenizeQuery (q : String) : List String :=
  ((splitWsChars q.data).filter (fun t => !t.isEmpty)).map String.mk

/-- Modelled from the spec: the SPARQL grammar of the external rdflib parser
invoked through prepareQuery at utils.py line 105 is not part of this
repository. Classification skips prologue declarations and is decided by the
leading query form keyword, case-insensitively; any other leading token is a
syntax error carrying the parser diagnostic of the underlying
pyparsing-based grammar. The fuel argument bounds the prologue length and is
instantiated with the token count, which always suffices. -/
def classifyTokensAux : ℕ → List String → Except SparqlxError QueryType
  | _, [] => .error (.pyparsingParseException "Expected query form, found end of text")
  | 0, t :: _ => .error (.pyparsingParseException ("Expected query form, found " ++ t))
  | fuel + 1, t :: rest =>
    let tl := strLower t
    if tl = "select" then .ok .SelectQuery
    else if tl = "ask" then .ok .AskQuery
    else if tl = "construct" then .ok .ConstructQuery
    else if tl = "describe" then .ok .DescribeQuery
    else if tl = "base" then classifyTokensAux fuel (rest.drop 1)
    else if tl = "prefix" then classifyTokensAux fuel (rest.drop 2)
    else .error (.pyparsingParseException ("Expected query form, found " ++ t))

/-- Query type classification, prepareQuery(query).algebra.name at utils.py
line 105: the parser exception of the external grammar propagates unwrapped. -/
def prepareQueryAlgebraName (q : String) : Except SparqlxError QueryType :=
  classifyTokensAux (tokenizeQuery q).length (tokenizeQuery q)

/-- Arguments of SPARQLWrapper.query and of QueryOperationParameters
(sparqlwrapper.py lines 161 to 169). The convert flag is modelled as Bool
since only its truthiness is consulted. -/
structure QueryOpArgs where
  query : String
  convert : Bool := false
  response_format : Option String := none
  version : Option String := none
  default_graph_uri : Option DataValue := none
  named_graph_uri : Option DataValue := none

/-- Parameter object produced by a successful QueryOperationParameters
construction. -/
structure QueryOpParams where
  query_type : QueryType
  responseFormat : String
  data : List (String × DataValue)
  headers : List (String × String)
deriving DecidableEq, Repr

/-- QueryOperationParameters construction (utils.py lines 83 to 117): first
the query is classified by the external parser (line 105), then the headers
dictionary evaluates the response_format property (line 115), so both the
parse error and the convert ValueError are raised inside the constructor. -/
def QueryOperationParameters.mk (a : QueryOpArgs) : Except SparqlxError QueryOpParams :=
  match prepareQueryAlgebraName a.query with
  | .error e => .error e
  | .ok qt =>
    match QueryOperationParameters.response_format qt a.convert a.response_format with
    | .error e => .error e
    | .ok rf =>
      .ok { query_type := qt,
            responseFormat := rf,
            data := queryOperationData a.query a.version a.default_graph_uri a.named_graph_uri,
            headers := [("Accept", rf), ("Content-Type", "application/x-www-form-urlencoded")] }

/-- One HTTP request as handed to the httpx client by SPARQLWrapper.query. -/
structure SparqlRequest where
  url : String
  data : List (String × String)
  headers : List (String × String)
deriving DecidableEq, Repr

/-- The single POST request that SPARQLWrapper.query (sparqlwrapper.py lines
197 to 216) sends when parameter construction succeeds; the constructor error
propagates otherwise. -/
def SPARQLWrapper.query_request (endpoint : String) (a : QueryOpArgs) :
    Except SparqlxError SparqlRequest :=
  (QueryOperationParameters.mk a).map (fun p =>
    { url := endpoint, data := formEncodePairs p.data, headers := p.headers })

/-- Requests actually handed to the HTTP client by one call of
SPARQLWrapper.query: exactly one on success, none when the parameter
constructor raised (the with block opening the client comes after the
constructor call). -/
def SPARQLWrapper.sent_requests (endpoint : String) (a : QueryOpArgs) : List SparqlRequest :=
  match SPARQLWrapper.query_request endpoint a with
  | .ok r => [r]
  | .error _ => []

/-- JSON values, as returned by httpx Response.json. -/
inductive Json where
  | null
  | bool (b : Bool)
  | num (q : ℚ)
  | str (s : String)
  | arr (items : List Json)
  | obj (fields : List (String × Json))

/-- Response body as seen by a converter: either bytes that do not parse as
JSON, or the parsed JSON document. -/
inductive Body where
  | notJson (raw : String)
  | json (j : Json)

/-- Response.json(): returns the parsed document, or raises the generic
json.JSONDecodeError of the standard json module on non-JSON bytes (the
message json.loads produces at the start of a non-JSON body). -/
def responseJson : Body → Except SparqlxError Json
  | .notJson _ => .error (.jsonDecodeError "Expecting value: line 1 column 1 (char 0)")
  | .json j => .ok j

/-- The convert_ask converter (converters.py lines 116 to 130), literally
response.json()["boolean"]: a dict subscript on the parsed document, so a
missing key raises KeyError and a non-object document raises TypeError. -/
def convert_ask (r : Body) : Except SparqlxError Json := do
  let j ← responseJson r
  match j with
  | .obj fields =>
    match fields.lookup "boolean" with
    | some v => .ok v
    | none => .error (.keyError "boolean")
  | _ => .error (.typeError "json document is not an object")

/-- Identity of one httpx client handle. -/
abbrev ClientId := Nat

/-- Observable resource effects of the client lifecycle: a POST performed on a
handle, a handle being closed, the unmanaged-client warning naming a handle. -/
inductive Effect where
  | posted (c : ClientId)
  | closed (c : ClientId)
  | warned (c : ClientId)
deriving DecidableEq, Repr

/-- State of a ClientManager (client_manager.py lines 30 to 53) for the
synchronous client: the externally supplied handle recorded at construction,
the current value of the private client attribute (initially that handle),
and a counter supplying identities for freshly created handles. -/
structure CMState where
  provided : Option ClientId
  clientField : Option ClientId
  nextId : ClientId
deriving DecidableEq, Repr

/-- ClientManager construction: the client attribute is set to the supplied
handle, or stays unset when none is supplied. -/
def ClientManager.init (provided : Option ClientId) : CMState :=
  { provided := provided,
    clientField := provided,
    nextId := match provided with | some c => c + 1 | none => 0 }

/-- The client property (client_manager.py lines 55 to 63 and 149 to 168):
returns the stored handle when the attribute is set, otherwise creates a
fresh httpx.Client without storing it. -/
def ClientManager.clientProp (s : CMState) : ClientId × CMState :=
  match s.clientField with
  | some c => (c, s)
  | none => (s.nextId, { s with nextId := s.nextId + 1 })

/-- The per-call managed context of ClientManager.context (client_manager.py
lines 77 to 95) around the single POST of SPARQLWrapper.query: obtain the
client, post, then close the client only when no client attribute is set,
and otherwise emit the unmanaged-client warning naming the handle. -/
def ClientManager.contextPost (s : CMState) : List Effect × CMState :=
  let (c, s1) := ClientManager.clientProp s
  match s1.clientField with
  | none => ([Effect.posted c, Effect.closed c], s1)
  | some _ => ([Effect.posted c, Effect.warned c], s1)

/-- SPARQLWrapper entry of the synchronous context manager (sparqlwrapper.py
lines 64 to 72): materializes the client property into the client attribute. -/
def SPARQLWrapper.enterCtx (s : CMState) : CMState :=
  let (c, s1) := ClientManager.clientProp s
  { s1 with clientField := some c }

/-- SPARQLWrapper exit of the synchronous context manager (sparqlwrapper.py
lines 74 to 83): evaluates the client property and closes the resulting
handle unconditionally, with no warning. -/
def SPARQLWrapper.exitCtx (s : CMState) : List Effect × CMState :=
  let (c, s1) := ClientManager.clientProp s
  ([Effect.closed c], s1)

/-- Keys of a converted row are exactly the declared variables, in order. -/
theorem convertRow_keys (vars : List String) (b : List (String × TermDesc)) :
    (convertRow vars b).map Prod.fst = vars := by
  induction vars with
  | nil => rfl
  | cons v vs ih =>
    simp only [convertRow, List.map_cons] at ih ⊢
    simp [ih]

/-- Claim C2: for every well-formed SELECT JSON payload with variable list V
and rows R, convert_bindings returns exactly one row per payload row, in
payload order, every returned row has key list V, and a variable without an
entry in a binding object is mapped to the unbound marker none. -/
theorem select_bindings_conversion_shape (p : SelectPayload) :
    (convert_bindings p).length = p.bindings.length
    ∧ (∀ row ∈ convert_bindings p, row.map Prod.fst = p.vars)
    ∧ (∀ (i : ℕ) (h1 : i < (convert_bindings p).length) (h2 : i < p.bindings.length),
        (convert_bindings p).get ⟨i, h1⟩ = convertRow p.vars (p.bindings.get ⟨i, h2⟩))
    ∧ (∀ b ∈ p.bindings, ∀ v ∈ p.vars, b.lookup v = none →
        (v, (none : Option SPARQLBindingValue)) ∈ convertRow p.vars b) := by
  refine ⟨by simp [convert_bindings], ?_, ?_, ?_⟩
  · intro row hrow
    obtain ⟨b, _, rfl⟩ := List.mem_map.mp hrow
    exact convertRow_keys p.vars b
  · intro i h1 h2
    simp [convert_bindings]
  · intro b _ v hv hnone
    exact List.mem_map.mpr ⟨v, hv, by rw [hnone]; rfl⟩

/-- Witness for C2 at a concrete two-variable, two-row payload in which the
second variable is absent from the first binding object. -/
theorem select_bindings_conversion_shape_witness :
    (convert_bindings ⟨["x", "y"],
      [[("x", TermDesc.literal "1" (some (xsd "integer")))],
       [("x", TermDesc.uri "urn:a"), ("y", TermDesc.bnode "b0")]]⟩).length = 2
    ∧ ("y", (none : Option SPARQLBindingValue))
        ∈ convertRow ["x", "y"] [("x", TermDesc.literal "1" (some (xsd "integer")))] := by
  have h := select_bindings_conversion_shape ⟨["x", "y"],
      [[("x", TermDesc.literal "1" (some (xsd "integer")))],
       [("x", TermDesc.uri "urn:a"), ("y", TermDesc.bnode "b0")]]⟩
  exact ⟨h.1, h.2.2.2 _ (by simp) "y" (by simp) rfl⟩

/-- Claim C3: literal coercion of a gYear or gYearMonth literal yields a
tagged literal value carrying the raw lexical form and the datatype tag, and
that value is distinct from the coercion result of the plain untyped literal
with the same lexical form. -/
theorem gyear_gyearmonth_coercion_tagged (lex : String) :
    convertTerm (TermDesc.literal lex (some (xsd "gYear")))
        = SPARQLBindingValue.literal lex (some (xsd "gYear"))
    ∧ convertTerm (TermDesc.literal lex (some (xsd "gYearMonth")))
        = SPARQLBindingValue.literal lex (some (xsd "gYearMonth"))
    ∧ convertTerm (TermDesc.literal lex (some (xsd "gYear")))
        ≠ convertTerm (TermDesc.literal lex none)
    ∧ convertTerm (TermDesc.literal lex (some (xsd "gYearMonth")))
        ≠ convertTerm (TermDesc.literal lex none) := by
  have hg : xsdToPythonTable.lookup (xsd "gYear") = none := rfl
  have hm : xsdToPythonTable.lookup (xsd "gYearMonth") = none := rfl
  refine ⟨?_, ?_, ?_, ?_⟩ <;>
    simp [convertTerm, literalToPython, hg, hm]

/-- Witness for C3 at the lexical form 2024 used by the repository test. -/
theorem gyear_gyearmonth_coercion_tagged_witness :
    convertTerm (TermDesc.literal "2024" (some (xsd "gYear")))
        = SPARQLBindingValue.literal "2024" (some (xsd "gYear"))
    ∧ convertTerm (TermDesc.literal "2024" (some (xsd "gYear")))
        ≠ convertTerm (TermDesc.literal "2024" none) :=
  ⟨(gyear_gyearmonth_coercion_tagged "2024").1,
   (gyear_gyearmonth_coercion_tagged "2024").2.2.1⟩

/-- Counterexample to claim C6: converting a well-formed payload whose single
literal carries an unregistered datatype succeeds and passes the value
through as a tagged literal; no UnsupportedLiteralType failure occurs (the
code path, rdflib Literal.toPython, is total and no such error class exists
anywhere in the code). -/
theorem unsupported_datatype_no_failure :
    convert_bindings ⟨["x"],
        [[("x", TermDesc.literal "v" (some "http://example.org/vocab#custom"))]]⟩
      = [[("x", some (SPARQLBindingValue.literal "v"
            (some "http://example.org/vocab#custom")))]] := rfl

/-- Amended claim C6: coercion of a literal whose datatype has no registered
coercion does not fail; it returns a tagged literal value carrying the
datatype string and the original lexical value, never a coerced native
default. -/
theorem unsupported_datatype_passthrough (lex dt : String)
    (h : xsdToPythonTable.lookup dt = none) :
    convertTerm (TermDesc.literal lex (some dt)) = SPARQLBindingValue.literal lex (some dt) := by
  simp [convertTerm, literalToPython, h]

/-- Witness for the amended C6 at a concrete unregistered datatype. -/
theorem unsupported_datatype_passthrough_witness :
    convertTerm (TermDesc.literal "v" (some "http://example.org/vocab#custom"))
      = SPARQLBindingValue.literal "v" (some "http://example.org/vocab#custom") :=
  unsupported_datatype_passthrough "v" "http://example.org/vocab#custom" rfl

/-- Claim C10: coercing the literal 2.2 with datatype xsd decimal yields the
exact rational 11 / 5, and no binary floating-point value (a dyadic rational
m / 2 ^ e) equals it, so the result is not a float approximation. -/
theorem decimal_coercion_exact :
    literalToPython "2.2" (some (xsd "decimal")) = SPARQLBindingValue.decimal (11 / 5 : ℚ)
    ∧ ∀ (m : ℤ) (e : ℕ), ((11 : ℚ) / 5) ≠ (m : ℚ) / 2 ^ e := by
  constructor
  · have h0 : literalToPython "2.2" (some (xsd "decimal"))
        = SPARQLBindingValue.decimal ((2 : ℚ) + (2 : ℚ) / (10 : ℚ) ^ 1) := rfl
    rw [h0]
    norm_num
  · intro m e h
    rw [div_eq_div_iff (by norm_num) (by positivity)] at h
    have h3 : (11 : ℤ) * 2 ^ e = m * 5 := by exact_mod_cast h
    have h5 : (5 : ℤ) ∣ 11 * 2 ^ e := ⟨m, by linarith⟩
    have hp : Prime (5 : ℤ) := by norm_num
    rcases hp.dvd_mul.mp h5 with h11 | hpow
    · rcases h11 with ⟨k, hk⟩
      omega
    · rcases hp.dvd_of_dvd_pow hpow with ⟨k, hk⟩
      omega

/-- Witness for C10: the coerced value, and its distinctness from one
concrete dyadic rational. -/
theorem decimal_coercion_exact_witness :
    literalToPython "2.2" (some (xsd "decimal")) = SPARQLBindingValue.decimal (11 / 5 : ℚ)
    ∧ ((11 : ℚ) / 5) ≠ ((2 : ℤ) : ℚ) / 2 ^ 0 :=
  ⟨decimal_coercion_exact.1, decimal_coercion_exact.2 2 0⟩

/-- Claim C4, divergence record: the convert_ask converter returns the value
of the boolean field on a well-formed payload, but on valid JSON lacking the
field it raises the generic KeyError of the dict subscript, which is not a
ValueError-class error and so not the distinct MissingBooleanKey error the
claim and the repository test test_convert_ask_missing_boolean_key require;
and on non-JSON bytes it raises the generic json module decode error whose
message does not contain the text the repository test
test_convert_ask_invalid_json_error_message matches. -/
theorem ask_converter_divergence :
    convert_ask (Body.json (Json.obj [("boolean", Json.bool true)])) = .ok (Json.bool true)
    ∧ convert_ask (Body.json (Json.obj [("answer", Json.bool true)]))
        = .error (SparqlxError.keyError "boolean")
    ∧ SparqlxError.isValueErrorClass (SparqlxError.keyError "boolean") = false
    ∧ convert_ask (Body.notJson "NOT JSON")
        = .error (SparqlxError.jsonDecodeError "Expecting value: line 1 column 1 (char 0)")
    ∧ containsSubstr "Expected JSON response for ASK query"
        "Expecting value: line 1 column 1 (char 0)" = false
    ∧ SparqlxError.isValueErrorClass
        (SparqlxError.jsonDecodeError "Expecting value: line 1 column 1 (char 0)") = true :=
  ⟨rfl, rfl, rfl, rfl, rfl, rfl⟩

/-- Claim C5, divergence record: on syntactically invalid query text the
parameter constructor fails before any request is sent, but with the raw
parser exception of the external grammar propagated unwrapped, which is not
a ValueError-class error, so neither a QueryParseException wrapper nor the
ValueError demanded by the repository test
test_invalid_sparql_query_error_message is raised. -/
theorem invalid_query_raw_parser_error :
    QueryOperationParameters.mk { query := "THIS IS NOT SPARQL" }
      = .error (SparqlxError.pyparsingParseException "Expected query form, found THIS")
    ∧ SPARQLWrapper.sent_requests "http://example.org" { query := "THIS IS NOT SPARQL" } = []
    ∧ SparqlxError.isValueErrorClass
        (SparqlxError.pyparsingParseException "Expected query form, found THIS") = false :=
  ⟨rfl, rfl, rfl⟩

/-- Claim C1: for a query classified as Select or Ask, with convert true and
a resolved response MIME type that is neither of the two JSON variants, the
parameter constructor fails with a ValueError carrying exactly the
documented message, and the query operation sends no HTTP request. -/
theorem convert_true_nonjson_select_ask_fails_fast
    (a : QueryOpArgs) (qt : QueryType)
    (hq : prepareQueryAlgebraName a.query = .ok qt)
    (hqt : qt = QueryType.SelectQuery ∨ qt = QueryType.AskQuery)
    (hc : a.convert = true)
    (h1 : resolve_response_format qt a.response_format ≠ "application/json")
    (h2 : resolve_response_format qt a.response_format ≠ "application/sparql-results+json") :
    QueryOperationParameters.mk a = .error (SparqlxError.valueError jsonRequiredMsg)
    ∧ ∀ endpoint, SPARQLWrapper.sent_requests endpoint a = [] := by
  have hrf : QueryOperationParameters.response_format qt a.convert a.response_format
      = .error (SparqlxError.valueError jsonRequiredMsg) := by
    rcases hqt with rfl | rfl <;>
      simp [QueryOperationParameters.response_format, resolve_response_format, hc, h1, h2] <;>
      simp [resolve_response_format] at h1 h2 <;>
      simp [h1, h2]
  have hmk : QueryOperationParameters.mk a = .error (SparqlxError.valueError jsonRequiredMsg) := by
    simp [QueryOperationParameters.mk, hq, hrf]
  refine ⟨hmk, fun endpoint => ?_⟩
  simp [SPARQLWrapper.sent_requests, SPARQLWrapper.query_request, hmk, Except.map]

/-- Witness for C1: an Ask query with convert true and format csv fails with
the exact message and sends nothing. -/
theorem convert_true_nonjson_select_ask_fails_fast_witness :
    QueryOperationParameters.mk
        { query := "ask where", convert := true, response_format := some "csv" }
      = .error (SparqlxError.valueError jsonRequiredMsg)
    ∧ SPARQLWrapper.sent_requests "http://example.org"
        { query := "ask where", convert := true, response_format := some "csv" } = [] := by
  have h := convert_true_nonjson_select_ask_fails_fast
    { query := "ask where", convert := true, response_format := some "csv" }
    QueryType.AskQuery rfl (Or.inr rfl) rfl
    (by intro hcontra; exact absurd hcontra (by decide))
    (by intro hcontra; exact absurd hcontra (by decide))
  exact ⟨h.1, h.2 "http://example.org"⟩

/-- Counterexample to claim C8: the empty string is not among the aliases,
yet it is not returned unchanged as a literal MIME type override; Python
truthiness makes it fall back to the default JSON MIME type. -/
theorem empty_format_not_passthrough :
    resolve_response_format QueryType.SelectQuery (some "")
      = "application/sparql-results+json"
    ∧ resolve_response_format QueryType.SelectQuery (some "") ≠ "" :=
  ⟨rfl, by decide⟩

/-- Amended claim C8: response format resolution is a total function of query
type and optional format; with no format, or an empty-string format, Select
and Ask resolve to the JSON results MIME type and Construct and Describe to
turtle; the short aliases resolve to their standard MIME types; any other
nonempty string outside the alias table is returned unchanged as a literal
MIME type override. -/
theorem response_format_resolution_amended :
    (resolve_response_format .SelectQuery none = "application/sparql-results+json"
      ∧ resolve_response_format .AskQuery none = "application/sparql-results+json"
      ∧ resolve_response_format .SelectQuery (some "") = "application/sparql-results+json"
      ∧ resolve_response_format .ConstructQuery none = "text/turtle"
      ∧ resolve_response_format .DescribeQuery none = "text/turtle"
      ∧ resolve_response_format .ConstructQuery (some "") = "text/turtle")
    ∧ (resolve_response_format .SelectQuery (some "json") = "application/sparql-results+json"
      ∧ resolve_response_format .SelectQuery (some "xml") = "application/sparql-results+xml"
      ∧ resolve_response_format .AskQuery (some "csv") = "text/csv"
      ∧ resolve_response_format .AskQuery (some "tsv") = "text/tab-separated-values"
      ∧ resolve_response_format .ConstructQuery (some "turtle") = "text/turtle"
      ∧ resolve_response_format .ConstructQuery (some "xml") = "application/rdf+xml"
      ∧ resolve_response_format .DescribeQuery (some "ntriples") = "application/n-triples"
      ∧ resolve_response_format .DescribeQuery (some "json-ld") = "application/ld+json")
    ∧ (∀ s : String, s ≠ "" → bindings_format_entries.lookup s = none →
        resolve_response_format .SelectQuery (some s) = s
        ∧ resolve_response_format .AskQuery (some s) = s)
    ∧ (∀ s : String, s ≠ "" → graph_format_entries.lookup s = none →
        resolve_response_format .ConstructQuery (some s) = s
        ∧ resolve_response_format .DescribeQuery (some s) = s) := by
  refine ⟨⟨rfl, rfl, rfl, rfl, rfl, rfl⟩,
         ⟨rfl, rfl, rfl, rfl, rfl, rfl, rfl, rfl⟩, ?_, ?_⟩ <;>
    intro s hs hl <;>
    constructor <;>
    simp [resolve_response_format, pyOrDefault, MimeTypeMap.get, hs, hl]

/-- Witness for the amended C8 at the literal MIME type override used by the
repository result-format test. -/
theorem response_format_resolution_amended_witness :
    resolve_response_format .SelectQuery (some "application/x-binary-rdf-results-table")
      = "application/x-binary-rdf-results-table" := by
  have h := response_format_resolution_amended.2.2.1
    "application/x-binary-rdf-results-table" (by decide) rfl
  exact h.1


/-- Case-split normal form of the query operation request data. -/
theorem queryOperationData_eq (q : String) (ver : Option String)
    (dgu ngu : Option DataValue) :
    queryOperationData q ver dgu ngu
      = ("query", DataValue.str q) ::
        ((match ver with | none => [] | some v => [("version", DataValue.str v)]) ++
         (match dgu with | none => [] | some d => [("default-graph-uri", d)]) ++
         (match ngu with | none => [] | some n => [("named-graph-uri", n)])) := by
  rcases ver <;> rcases dgu <;> rcases ngu <;> rfl

/-- Case-split normal form of the update operation request data. -/
theorem updateOperationData_eq (u : String) (ver : Option String)
    (ugu ungu : Option DataValue) :
    updateOperationData u ver ugu ungu
      = ("update", DataValue.str u) ::
        ((match ver with | none => [] | some v => [("version", DataValue.str v)]) ++
         (match ugu with | none => [] | some d => [("using-graph-uri", d)]) ++
         (match ungu with | none => [] | some n => [("using-named-graph-uri", n)])) := by
  rcases ver <;> rcases ugu <;> rcases ungu <;> rfl

/-- Filtering a repeated-key wire encoding for a key keeps everything when
the keys agree and nothing otherwise. -/
theorem filter_mapped_key (l : List String) (k1 k2 : String) :
    (l.map (fun u => (k1, u))).filter (fun p => p.1 == k2)
      = if k1 = k2 then l.map (fun u => (k1, u)) else [] := by
  induction l with
  | nil => simp
  | cons x xs ih =>
    by_cases h : k1 = k2 <;> simp [h] at ih ⊢

/-- Unfolding of the wire encoding on a cons cell. -/
theorem formEncodePairs_cons (kv : String × DataValue) (rest : List (String × DataValue)) :
    formEncodePairs (kv :: rest)
      = (match kv.2 with
         | .str s => [(kv.1, s)]
         | .list l => l.map (fun x => (kv.1, x))) ++ formEncodePairs rest := by
  simp [formEncodePairs]

/-- Claim C7: the assembled request body carries each option under its
hyphen-translated protocol name, omits options whose value is None entirely,
carries the query and update text unmodified, and wire-encodes a list-valued
graph URI option as repeated field occurrences in input order. -/
theorem operation_data_translation :
    (∀ (q : String) (ver : Option String) (dgu ngu : Option DataValue),
      ("query", DataValue.str q) ∈ queryOperationData q ver dgu ngu
      ∧ (ver = none → "version" ∉ (queryOperationData q ver dgu ngu).map Prod.fst)
      ∧ (dgu = none → "default-graph-uri" ∉ (queryOperationData q ver dgu ngu).map Prod.fst)
      ∧ (ngu = none → "named-graph-uri" ∉ (queryOperationData q ver dgu ngu).map Prod.fst)
      ∧ (∀ v, ver = some v → ("version", DataValue.str v) ∈ queryOperationData q ver dgu ngu)
      ∧ (∀ s, dgu = some (DataValue.str s) →
          ("default-graph-uri", DataValue.str s) ∈ queryOperationData q ver dgu ngu)
      ∧ (∀ s, ngu = some (DataValue.str s) →
          ("named-graph-uri", DataValue.str s) ∈ queryOperationData q ver dgu ngu)
      ∧ (∀ l, dgu = some (DataValue.list l) →
          (formEncodePairs (queryOperationData q ver dgu ngu)).filter
              (fun p => p.1 == "default-graph-uri")
            = l.map (fun u => ("default-graph-uri", u)))
      ∧ (∀ l, ngu = some (DataValue.list l) →
          (formEncodePairs (queryOperationData q ver dgu ngu)).filter
              (fun p => p.1 == "named-graph-uri")
            = l.map (fun u => ("named-graph-uri", u))))
    ∧ (∀ (u : String) (ver : Option String) (ugu ungu : Option DataValue),
      ("update", DataValue.str u) ∈ updateOperationData u ver ugu ungu
      ∧ (∀ s, ugu = some (DataValue.str s) →
          ("using-graph-uri", DataValue.str s) ∈ updateOperationData u ver ugu ungu)
      ∧ (∀ s, ungu = some (DataValue.str s) →
          ("using-named-graph-uri", DataValue.str s) ∈ updateOperationData u ver ugu ungu)
      ∧ (∀ l, ungu = some (DataValue.list l) →
          (formEncodePairs (updateOperationData u ver ugu ungu)).filter
              (fun p => p.1 == "using-named-graph-uri")
            = l.map (fun x => ("using-named-graph-uri", x)))) := by
  constructor
  · intro q ver dgu ngu
    refine ⟨?_, ?_, ?_, ?_, ?_, ?_, ?_, ?_, ?_⟩
    · simp [queryOperationData_eq]
    · rintro rfl
      rcases dgu with _ | dv <;> rcases ngu with _ | nv <;> simp [queryOperationData_eq]
    · rintro rfl
      rcases ver with _ | v <;> rcases ngu with _ | nv <;> simp [queryOperationData_eq]
    · rintro rfl
      rcases ver with _ | v <;> rcases dgu with _ | dv <;> simp [queryOperationData_eq]
    · rintro v rfl
      simp [queryOperationData_eq]
    · rintro s rfl
      simp [queryOperationData_eq]
    · rintro s rfl
      simp [queryOperationData_eq]
    · rintro l rfl
      rcases ver with _ | v <;> rcases ngu with _ | (s | nl) <;>
        simp [queryOperationData_eq, formEncodePairs_cons, formEncodePairs,
              List.filter_append, filter_mapped_key]
    · rintro l rfl
      rcases ver with _ | v <;> rcases dgu with _ | (s | dl) <;>
        simp [queryOperationData_eq, formEncodePairs_cons, formEncodePairs,
              List.filter_append, filter_mapped_key]
  · intro u ver ugu ungu
    refine ⟨?_, ?_, ?_, ?_⟩
    · simp [updateOperationData_eq]
    · rintro s rfl
      simp [updateOperationData_eq]
    · rintro s rfl
      simp [updateOperationData_eq]
    · rintro l rfl
      rcases ver with _ | v <;> rcases ugu with _ | (s | ul) <;>
        simp [updateOperationData_eq, formEncodePairs_cons, formEncodePairs,
              List.filter_append, filter_mapped_key]

/-- Witness for C7 at the concrete options from the spec examples: a named
graph URI string, an omitted version, and a two-element default graph list. -/
theorem operation_data_translation_witness :
    ("named-graph-uri", DataValue.str "https://named.graph")
        ∈ queryOperationData "select 1" none
            (some (DataValue.list ["urn:g1", "urn:g2"]))
            (some (DataValue.str "https://named.graph"))
    ∧ "version" ∉ (queryOperationData "select 1" none
            (some (DataValue.list ["urn:g1", "urn:g2"]))
            (some (DataValue.str "https://named.graph"))).map Prod.fst
    ∧ (formEncodePairs (queryOperationData "select 1" none
            (some (DataValue.list ["urn:g1", "urn:g2"]))
            (some (DataValue.str "https://named.graph")))).filter
          (fun p => p.1 == "default-graph-uri")
        = [("default-graph-uri", "urn:g1"), ("default-graph-uri", "urn:g2")] := by
  have h := operation_data_translation.1 "select 1" none
      (some (DataValue.list ["urn:g1", "urn:g2"]))
      (some (DataValue.str "https://named.graph"))
  exact ⟨h.2.2.2.2.2.2.1 "https://named.graph" rfl,
         h.2.1 rfl,
         h.2.2.2.2.2.2.2.1 ["urn:g1", "urn:g2"] rfl⟩

/-- Counterexample to claim C9: construct the facade with an externally
supplied client handle (identity 0), enter and exit the facade context
manager; teardown closes that externally supplied handle, with no warning,
although the claim states the facade never closes a caller-supplied handle. -/
theorem facade_exit_closes_external_client :
    (ClientManager.init (some 0)).provided = some 0
    ∧ (SPARQLWrapper.exitCtx (SPARQLWrapper.enterCtx (ClientManager.init (some 0)))).1
        = [Effect.closed 0] :=
  ⟨rfl, rfl⟩

/-- Amended claim C9: the per-call managed context never closes a handle held
in the client attribute (in particular an externally supplied one) and emits
the unmanaged-client warning for it instead; a handle the manager creates for
the call is closed at the end of the call; but the facade context-manager
teardown unconditionally closes the current handle, including an externally
supplied one, without a warning. -/
theorem client_lifecycle_amended (s : CMState) (c : ClientId) :
    (s.clientField = some c →
        (ClientManager.contextPost s).1 = [Effect.posted c, Effect.warned c]
        ∧ Effect.closed c ∉ (ClientManager.contextPost s).1)
    ∧ (s.clientField = none →
        (ClientManager.contextPost s).1 = [Effect.posted s.nextId, Effect.closed s.nextId])
    ∧ (s.clientField = some c → (SPARQLWrapper.exitCtx s).1 = [Effect.closed c]) := by
  refine ⟨?_, ?_, ?_⟩
  · intro h
    constructor <;> simp [ClientManager.contextPost, ClientManager.clientProp, h]
  · intro h
    simp [ClientManager.contextPost, ClientManager.clientProp, h]
  · intro h
    simp [SPARQLWrapper.exitCtx, ClientManager.clientProp, h]

/-- Witness for the amended C9 at a manager holding the externally supplied
handle 7 and at a manager without any supplied handle. -/
theorem client_lifecycle_amended_witness :
    ((ClientManager.contextPost (ClientManager.init (some 7))).1
        = [Effect.posted 7, Effect.warned 7]
      ∧ Effect.closed 7 ∉ (ClientManager.contextPost (ClientManager.init (some 7))).1)
    ∧ (ClientManager.contextPost (ClientManager.init none)).1
        = [Effect.posted 0, Effect.closed 0] := by
  refine ⟨(client_lifecycle_amended (ClientManager.init (some 7)) 7).1 rfl, ?_⟩
  exact (client_lifecycle_amended (ClientManager.init none) 0).2.1 rfl
